import Mathlib

/-!
Shallow embedding of the FastAPI single-table user CRUD service
(src/app/main.py) and proofs of the claims of the specification about it.

The service state is the `users` table: a list of rows plus the storage
next auto-increment id of the storage engine.  Each HTTP operation is embedded as a
pure function from (input, state) to (response, state).  Request
validation (pydantic `UserCreate`, FastAPI path-parameter parsing) and
the custom `RequestValidationError` handler are embedded explicitly.
-/

namespace FastAPIUsers

/-- A JSON value as far as the pydantic field checks distinguish them:
a string, a number, or null. -/
inductive JsonVal where
  | jstr (s : String)
  | jnum (n : Int)
  | jnull
deriving DecidableEq

/-- The parsed JSON body submitted to POST/PUT: the two fields the pydantic
`UserCreate` model looks at, each possibly absent. -/
structure Payload where
  name : Option JsonVal
  email : Option JsonVal
deriving DecidableEq

/-- One entry of the pydantic error list: the field location and message. -/
structure FieldError where
  loc : String
  msg : String
deriving DecidableEq

def nameLoc : String := "name"

def emailLoc : String := "email"

def idLoc : String := "id"

def requiredMsg : String := "Field required"

def notStringMsg : String := "Input should be a valid string"

def badEmailMsg : String := "value is not a valid email address"

def notIntMsg : String := "Input should be a valid integer"

/-- Email-address syntax check, modelling the pydantic `EmailStr` check: exactly
one at-sign, non-empty local part, non-empty domain containing a dot,
and no spaces. -/
def isValidEmail (s : String) : Bool :=
  let cs := s.data
  let dom := (cs.dropWhile (fun c => !(c == '@'))).drop 1
  (cs.count '@' == 1)
    && !(cs.takeWhile (fun c => !(c == '@'))).isEmpty
    && !dom.isEmpty
    && dom.contains '.'
    && !cs.contains ' '

/-- pydantic check of the `name : str` field of `UserCreate`: must be
present and a string (any string, the empty one included). -/
def checkName : Option JsonVal → Option FieldError
  | none => some ⟨nameLoc, requiredMsg⟩
  | some (.jstr _) => none
  | some _ => some ⟨nameLoc, notStringMsg⟩

/-- pydantic check of the `email : EmailStr` field of `UserCreate`: must
be present, a string, and valid email syntax. -/
def checkEmail : Option JsonVal → Option FieldError
  | none => some ⟨emailLoc, requiredMsg⟩
  | some (.jstr s) => if isValidEmail s then none else some ⟨emailLoc, badEmailMsg⟩
  | some _ => some ⟨emailLoc, notStringMsg⟩

/-- A validated `UserCreate` value. -/
structure UserCreate where
  name : String
  email : String
deriving DecidableEq

/-- pydantic validation of a request body against `UserCreate`: succeeds
exactly when both field checks pass, otherwise collects the error of
every failing field (pydantic reports all field errors, not just the
first). -/
def validateCreate (p : Payload) : Except (List FieldError) UserCreate :=
  match p.name, p.email with
  | some (.jstr n), some (.jstr e) =>
      if isValidEmail e then .ok ⟨n, e⟩
      else .error [⟨emailLoc, badEmailMsg⟩]
  | nameField, emailField =>
      .error ((checkName nameField).toList ++ (checkEmail emailField).toList)

/-- A stored row of the `users` table. -/
structure UserRow where
  id : Int
  name : String
  email : String
deriving DecidableEq

/-- The `users` table state: its rows in storage order and the
auto-increment counter for the integer primary key. -/
structure DB where
  rows : List UserRow
  nextId : Int
deriving DecidableEq

/-- Content of the JSON body built by `validation_exception_handler`:
the per-field error list under "detail" and the submitted request body
echoed under "body" (absent, i.e. null, for bodyless requests). -/
structure ValidationContent where
  detail : List FieldError
  body : Option Payload
deriving DecidableEq

/-- The custom `RequestValidationError` handler of the app: always returns
status 400 with content `{"detail": exc.errors(), "body": exc.body}`. -/
def validation_exception_handler (excErrors : List FieldError)
    (excBody : Option Payload) : Nat × ValidationContent :=
  (400, ⟨excErrors, excBody⟩)

def createErrMsg : String := "Error creating user"

def updateErrMsg : String := "Error updating user"

def notFoundMsg : String := "User not found"

def deletedMsg : String := "User deleted successfully"

/-- An HTTP response of this service: a single user body, a list body,
a message body, an `HTTPException` with status and detail, or the
response produced by the validation exception handler. -/
inductive Response where
  | userOk (u : UserRow)
  | usersOk (us : List UserRow)
  | messageOk (msg : String)
  | httpError (status : Nat) (detail : String)
  | validation (resp : Nat × ValidationContent)
deriving DecidableEq

/-- HTTP status code of a response. -/
def Response.status : Response → Nat
  | .userOk _ => 200
  | .usersOk _ => 200
  | .messageOk _ => 200
  | .httpError s _ => s
  | .validation r => r.1

/-- Whether a response came from the validation exception handler. -/
def Response.isValidation : Response → Bool
  | .validation _ => true
  | _ => false

/-- `SELECT * FROM users WHERE id = i` followed by `fetchone()`:
the first stored row with the given id, if any. -/
def findUser (db : DB) (i : Int) : Option UserRow :=
  db.rows.find? (fun r => r.id == i)

/-- Whether some stored row already has the given email (the unique
constraint on the email column). -/
def emailExists (db : DB) (e : String) : Bool :=
  db.rows.any (fun r => r.email == e)

/-- Number of stored rows with the given email. -/
def countEmail (db : DB) (e : String) : Nat :=
  (db.rows.filter (fun r => r.email == e)).length

/-- Handler of POST /api/v1/users/ after validation (`create_user`):
inserts a new row with the next auto-increment id and commits; if the
commit fails on the unique-email constraint, rolls back and raises
`HTTPException(400, "Error creating user")`. -/
def create_user (uc : UserCreate) (db : DB) : Response × DB :=
  let newUser : UserRow := ⟨db.nextId, uc.name, uc.email⟩
  if emailExists db uc.email then
    (.httpError 400 createErrMsg, db)
  else
    (.userOk newUser, ⟨db.rows ++ [newUser], db.nextId + 1⟩)

/-- Handler of GET /api/v1/users/ (`get_users`): returns every row. -/
def get_users (db : DB) : Response :=
  .usersOk db.rows

/-- Handler of GET /api/v1/users/{id} (`get_user`): returns the matching
row, or raises `HTTPException(404, "User not found")`. -/
def get_user (i : Int) (db : DB) : Response :=
  match findUser db i with
  | none => .httpError 404 notFoundMsg
  | some u => .userOk u

/-- Handler of PUT /api/v1/users/{id} after validation (`update_user`):
404 if no row matches; otherwise overwrites the name and email of the row in
place and commits; if the commit fails on the unique-email constraint
(another row already has the new email), rolls back and raises
`HTTPException(400, "Error updating user")`. -/
def update_user (i : Int) (uc : UserCreate) (db : DB) : Response × DB :=
  match findUser db i with
  | none => (.httpError 404 notFoundMsg, db)
  | some u =>
    if db.rows.any (fun r => r.email == uc.email && !(r.id == i)) then
      (.httpError 400 updateErrMsg, db)
    else
      (.userOk ⟨u.id, uc.name, uc.email⟩,
        ⟨db.rows.map (fun r => if r.id == i then ⟨u.id, uc.name, uc.email⟩ else r),
          db.nextId⟩)

/-- Handler of DELETE /api/v1/users/{id} (`delete_user`): 404 if no row
matches; otherwise `DELETE FROM users WHERE id = :id`, commits, and
returns `{"message": "User deleted successfully"}`. -/
def delete_user (i : Int) (db : DB) : Response × DB :=
  match findUser db i with
  | none => (.httpError 404 notFoundMsg, db)
  | some _ =>
    (.messageOk deletedMsg, ⟨db.rows.filter (fun r => !(r.id == i)), db.nextId⟩)

/-- Digits-only parse of a character list into a natural number. -/
def parseDigits (cs : List Char) : Option Nat :=
  if !cs.isEmpty && cs.all Char.isDigit then
    some (cs.foldl (fun n c => n * 10 + (c.toNat - 48)) 0)
  else none

/-- The FastAPI parse of the `{id}: int` path parameter: an optional sign
followed by at least one digit. -/
def parseIntParam (s : String) : Option Int :=
  match s.data with
  | '-' :: rest => (parseDigits rest).map (fun n => -(n : Int))
  | '+' :: rest => (parseDigits rest).map (fun n => (n : Int))
  | cs => (parseDigits cs).map (fun n => (n : Int))

/-- The pydantic error for a non-integer `{id}` path parameter. -/
def idFieldError : FieldError := ⟨idLoc, notIntMsg⟩

/-- Full POST /api/v1/users/ route: body validation, then the handler;
validation failure goes through the exception handler with the body
echoed. -/
def post_users (p : Payload) (db : DB) : Response × DB :=
  match validateCreate p with
  | .error errs => (.validation (validation_exception_handler errs (some p)), db)
  | .ok uc => create_user uc db

/-- Full GET /api/v1/users/{id} route: path-parameter parsing, then the
handler; a non-integer id never reaches the handler. -/
def get_user_route (idStr : String) (db : DB) : Response × DB :=
  match parseIntParam idStr with
  | none => (.validation (validation_exception_handler [idFieldError] none), db)
  | some i => (get_user i db, db)

/-- Full PUT /api/v1/users/{id} route: path-parameter parsing and body
validation (all parameter errors are collected), then the handler. -/
def put_user_route (idStr : String) (p : Payload) (db : DB) : Response × DB :=
  match parseIntParam idStr, validateCreate p with
  | some i, .ok uc => update_user i uc db
  | none, .ok _ =>
      (.validation (validation_exception_handler [idFieldError] (some p)), db)
  | some _, .error errs =>
      (.validation (validation_exception_handler errs (some p)), db)
  | none, .error errs =>
      (.validation (validation_exception_handler (idFieldError :: errs) (some p)), db)

/-- Full DELETE /api/v1/users/{id} route: path-parameter parsing, then
the handler. -/
def delete_user_route (idStr : String) (db : DB) : Response × DB :=
  match parseIntParam idStr with
  | none => (.validation (validation_exception_handler [idFieldError] none), db)
  | some i => delete_user i db

/-! Concrete fixtures used by witnesses and counterexamples. -/

def emptyStr : String := ""

def nameAnn : String := "Ann"

def emailAnn : String := "ann@example.com"

def rowAnn : UserRow := ⟨1, nameAnn, emailAnn⟩

/-- Example table holding the single user Ann with id 1. -/
def db0 : DB := ⟨[rowAnn], 2⟩

def nameA : String := "A"

def emailA : String := "a@x.com"

def nameB : String := "B"

def emailB : String := "b@x.com"

def rowA : UserRow := ⟨1, nameA, emailA⟩

def rowB : UserRow := ⟨2, nameB, emailB⟩

/-- Example table holding two users with distinct emails. -/
def db2 : DB := ⟨[rowA, rowB], 3⟩

/-- Example empty table. -/
def dbEmpty : DB := ⟨[], 1⟩

def badEmail : String := "not-an-email"

def badIdStr : String := "abc"

/-- A POST body whose email is syntactically invalid. -/
def pBad : Payload := ⟨some (.jstr nameAnn), some (.jstr badEmail)⟩

/-- A POST body whose name is the empty string and whose email is valid. -/
def pEmptyName : Payload := ⟨some (.jstr emptyStr), some (.jstr emailA)⟩

/-- The validation-handler response produced by posting `pBad`. -/
def cBad : Nat × ValidationContent := (400, ⟨[⟨emailLoc, badEmailMsg⟩], some pBad⟩)

/-! Helper lemmas shared by several claims. -/

/-- If some row with the given email is counted, the unique-constraint
check `emailExists` fires. -/
theorem emailExists_of_countEmail_pos (db : DB) (e : String)
    (h : 0 < countEmail db e) : emailExists db e = true := by
  unfold countEmail at h
  rcases List.exists_mem_of_length_pos h with ⟨r, hr⟩
  rcases List.mem_filter.1 hr with ⟨hmem, hpe⟩
  exact List.any_eq_true.2 ⟨r, hmem, hpe⟩

/-- `validateCreate` never fails with an empty error list: every failure
reports at least one field problem. -/
theorem validateCreate_error_ne_nil (p : Payload) (errs : List FieldError)
    (h : validateCreate p = .error errs) : errs ≠ [] := by
  intro hnil
  subst hnil
  rcases p with ⟨pn, pe⟩
  rcases pn with _ | (s | m | _) <;> rcases pe with _ | (t | k | _) <;>
    simp [validateCreate, checkName, checkEmail] at h <;>
    (try split at h) <;> simp_all

/-! Claims. -/

/-- Claim C5: `get_by_id(id)` (GET /api/v1/users/\x7bid\x7d) returns the
stored row with HTTP 200 when a row with that id exists, and fails with
404 "User not found" when no row matches. -/
theorem get_by_id_found_or_not_found (db : DB) (i : Int) :
    (∀ u, findUser db i = some u →
        get_user i db = .userOk u ∧ (get_user i db).status = 200) ∧
    (findUser db i = none →
        get_user i db = .httpError 404 notFoundMsg ∧ (get_user i db).status = 404) := by
  constructor
  · intro u h
    simp [get_user, h, Response.status]
  · intro h
    simp [get_user, h, Response.status]

/-- Witness for C5: in `db0`, looking up id 1 returns the row of Ann and
looking up id 5 returns 404. -/
theorem get_by_id_found_or_not_found_witness :
    get_user 1 db0 = .userOk rowAnn ∧
    get_user 5 db0 = .httpError 404 notFoundMsg :=
  ⟨((get_by_id_found_or_not_found db0 1).1 rowAnn rfl).1,
   ((get_by_id_found_or_not_found db0 5).2 rfl).1⟩

/-- Claim C8: `update_by_id` on an id with no matching row returns 404
and leaves the whole table unchanged. -/
theorem update_nonexistent_not_found_no_write (db : DB) (i : Int) (uc : UserCreate)
    (h : findUser db i = none) :
    update_user i uc db = (.httpError 404 notFoundMsg, db) ∧
    ((update_user i uc db).1).status = 404 := by
  constructor
  · simp [update_user, h]
  · simp [update_user, h, Response.status]

/-- Witness for C8: updating id 5 in `db0`, where only id 1 exists,
returns 404 and leaves `db0` unchanged. -/
theorem update_nonexistent_not_found_no_write_witness :
    update_user 5 ⟨nameB, emailB⟩ db0 = (.httpError 404 notFoundMsg, db0) ∧
    ((update_user 5 ⟨nameB, emailB⟩ db0).1).status = 404 :=
  update_nonexistent_not_found_no_write db0 5 ⟨nameB, emailB⟩ rfl

/-- Claim C2: when exactly one stored row already has the email, a
second create with that email fails with the 400 persistence error, the
failed transaction leaves storage unchanged, and exactly one row with
that email exists afterward. -/
theorem duplicate_email_second_create_fails (db : DB) (n e : String)
    (h : countEmail db e = 1) :
    create_user ⟨n, e⟩ db = (.httpError 400 createErrMsg, db) ∧
    ((create_user ⟨n, e⟩ db).1).status = 400 ∧
    countEmail (create_user ⟨n, e⟩ db).2 e = 1 := by
  have hx : emailExists db e = true := emailExists_of_countEmail_pos db e (by omega)
  refine ⟨?_, ?_, ?_⟩ <;> simp [create_user, hx, h, Response.status]

/-- Witness for C2: `db0` already stores the email of Ann once; creating a
second user with it fails with 400 and leaves exactly one such row. -/
theorem duplicate_email_second_create_fails_witness :
    create_user ⟨nameB, emailAnn⟩ db0 = (.httpError 400 createErrMsg, db0) ∧
    ((create_user ⟨nameB, emailAnn⟩ db0).1).status = 400 ∧
    countEmail (create_user ⟨nameB, emailAnn⟩ db0).2 emailAnn = 1 :=
  duplicate_email_second_create_fails db0 nameB emailAnn rfl

/-- Claim C7: a successful `delete_by_id(i)` returns the 200 deletion
message, and `get_by_id(i)` on the resulting table returns 404. -/
theorem delete_then_get_not_found (db : DB) (i : Int) (u : UserRow)
    (h : findUser db i = some u) :
    (delete_user i db).1 = .messageOk deletedMsg ∧
    get_user i (delete_user i db).2 = .httpError 404 notFoundMsg ∧
    (get_user i (delete_user i db).2).status = 404 := by
  have h1 : db.rows.find? (fun r => r.id == i) = some u := h
  have h2 : (db.rows.filter (fun r => !(r.id == i))).find? (fun r => r.id == i) = none := by
    rw [List.find?_eq_none]
    intro r hr
    have := (List.mem_filter.1 hr).2
    simpa using this
  refine ⟨?_, ?_, ?_⟩ <;>
    simp [delete_user, get_user, findUser, h1, h2, Response.status]

/-- Witness for C7: deleting id 1 from `db0` succeeds and a subsequent
lookup of id 1 returns 404. -/
theorem delete_then_get_not_found_witness :
    (delete_user 1 db0).1 = .messageOk deletedMsg ∧
    get_user 1 (delete_user 1 db0).2 = .httpError 404 notFoundMsg ∧
    (get_user 1 (delete_user 1 db0).2).status = 404 :=
  delete_then_get_not_found db0 1 rowAnn rfl

/-- Claim C6: a successful create (fresh email, fresh auto-increment id)
returns the new row with the assigned id, and `get_by_id` on that id
afterward returns the same id, name and email. -/
theorem create_then_get_roundtrip (db : DB) (n e : String)
    (hfresh : ∀ r ∈ db.rows, r.id ≠ db.nextId)
    (hnew : emailExists db e = false) :
    (create_user ⟨n, e⟩ db).1 = .userOk ⟨db.nextId, n, e⟩ ∧
    get_user db.nextId (create_user ⟨n, e⟩ db).2 = .userOk ⟨db.nextId, n, e⟩ := by
  have h1 : db.rows.find? (fun r => r.id == db.nextId) = none :=
    List.find?_eq_none.2 (fun r hr => by simpa using hfresh r hr)
  constructor
  · simp [create_user, hnew]
  · simp [create_user, hnew, get_user, findUser, List.find?_append, h1, List.find?]

/-- Witness for C6: creating Ann in the empty table returns id 1 and a
lookup of id 1 then returns the row of Ann. -/
theorem create_then_get_roundtrip_witness :
    (create_user ⟨nameAnn, emailAnn⟩ dbEmpty).1 = .userOk ⟨1, nameAnn, emailAnn⟩ ∧
    get_user 1 (create_user ⟨nameAnn, emailAnn⟩ dbEmpty).2 = .userOk ⟨1, nameAnn, emailAnn⟩ :=
  create_then_get_roundtrip dbEmpty nameAnn emailAnn (by simp [dbEmpty]) rfl

/-- Claim C1 counterexample: in `db2` the user with id 1 is stored, yet
updating it to the email of user 2 does not return the updated row — the
unique-email constraint makes the commit fail, the transaction is rolled
back, and the handler returns the 400 update error instead. -/
theorem update_overwrites_counterexample :
    findUser db2 1 = some rowA ∧
    (update_user 1 ⟨nameA, emailB⟩ db2).1 ≠ .userOk ⟨1, nameA, emailB⟩ ∧
    update_user 1 ⟨nameA, emailB⟩ db2 = (.httpError 400 updateErrMsg, db2) := by
  exact ⟨rfl, by decide, rfl⟩

/-- Claim C1 (amended): for every stored user with id i, provided no
other stored row already has the new email, `update_by_id(i, name,
email)` overwrites the name and email of that row in place, commits, and
returns the updated row with the same id and the new name and email;
otherwise the commit fails and it returns the 400 persistence error. -/
theorem update_by_id_overwrites (db : DB) (i : Int) (n e : String) (u : UserRow)
    (hfind : findUser db i = some u)
    (hemail : ∀ r ∈ db.rows, r.email = e → r.id = i) :
    update_user i ⟨n, e⟩ db =
      (.userOk ⟨i, n, e⟩,
        ⟨db.rows.map (fun r => if r.id == i then ⟨i, n, e⟩ else r), db.nextId⟩) := by
  have hid : u.id = i := by
    have := List.find?_some hfind
    simpa using this
  have hany : db.rows.any (fun r => r.email == e && !(r.id == i)) = false := by
    rw [List.any_eq_false]
    intro r hr
    simp only [Bool.and_eq_true, beq_iff_eq, Bool.not_eq_eq_eq_not, Bool.not_true,
      not_and]
    intro hre
    have := hemail r hr hre
    simp [this]
  have h1 : db.rows.find? (fun r => r.id == i) = some u := hfind
  simp [update_user, findUser, h1, hany, hid]

/-- Witness for C1 (amended): updating user 1 of `db0` to a fresh
name and email returns the updated row and rewrites it in place. -/
theorem update_by_id_overwrites_witness :
    update_user 1 ⟨nameB, emailB⟩ db0 =
      (.userOk ⟨1, nameB, emailB⟩,
        ⟨db0.rows.map (fun r => if r.id == 1 then ⟨1, nameB, emailB⟩ else r),
          db0.nextId⟩) :=
  update_by_id_overwrites db0 1 nameB emailB rowAnn rfl (by decide)

/-- Claim C3: a create whose email field is a syntactically invalid
string fails with the 400 validation response carrying a non-empty
per-field error list, and the table is untouched — the gateway is never
invoked. -/
theorem invalid_email_rejected_before_storage (p : Payload) (db : DB) (e : String)
    (hmail : p.email = some (.jstr e)) (hbad : isValidEmail e = false) :
    ∃ errs, errs ≠ [] ∧
      post_users p db = (.validation (validation_exception_handler errs (some p)), db) ∧
      ((post_users p db).1).status = 400 := by
  have hok : ∀ uc, validateCreate p ≠ .ok uc := by
    intro uc hc
    rcases p with ⟨pn, pe⟩
    have hpe : pe = some (.jstr e) := hmail
    subst hpe
    rcases pn with _ | (s | m | _) <;>
      simp [validateCreate, checkName, checkEmail, hbad] at hc
  cases hv : validateCreate p with
  | ok uc => exact absurd hv (hok uc)
  | error errs =>
      exact ⟨errs, validateCreate_error_ne_nil p errs hv,
        by simp [post_users, hv],
        by simp [post_users, hv, Response.status, validation_exception_handler]⟩

/-- Witness for C3: posting a body with an invalid email against `db0`
yields the 400 validation response and leaves `db0` unchanged. -/
theorem invalid_email_rejected_before_storage_witness :
    ∃ errs, errs ≠ [] ∧
      post_users pBad db0 =
        (.validation (validation_exception_handler errs (some pBad)), db0) ∧
      ((post_users pBad db0).1).status = 400 :=
  invalid_email_rejected_before_storage pBad db0 badEmail rfl rfl

/-- Claim C4 counterexample: a payload whose name is the empty string
(and whose email is valid) is accepted by `validateCreate` — the pydantic
`name: str` field does not require non-empty text, so the claimed rejection
does not happen. -/
theorem empty_name_accepted_counterexample :
    pEmptyName.name = some (.jstr emptyStr) ∧
    validateCreate pEmptyName = .ok ⟨emptyStr, emailA⟩ :=
  ⟨rfl, rfl⟩

/-- Claim C4 (amended): `validateCreate` requires name present and
textual but accepts the empty string; on failure it enumerates every
field-level problem found, e.g. a missing name and an invalid email are
both reported in one error list. -/
theorem validate_create_name_requirements :
    (∀ e, isValidEmail e = true →
        validateCreate ⟨some (.jstr emptyStr), some (.jstr e)⟩ = .ok ⟨emptyStr, e⟩) ∧
    (∀ e, isValidEmail e = false →
        validateCreate ⟨none, some (.jstr e)⟩ =
          .error [⟨nameLoc, requiredMsg⟩, ⟨emailLoc, badEmailMsg⟩]) := by
  constructor
  · intro e he
    simp [validateCreate, he]
  · intro e he
    simp [validateCreate, checkName, checkEmail, he]

/-- Witness for C4 (amended): the empty-name payload with a valid email
is accepted; the payload with no name and a bad email gets both field
errors. -/
theorem validate_create_name_requirements_witness :
    validateCreate ⟨some (.jstr emptyStr), some (.jstr emailA)⟩ = .ok ⟨emptyStr, emailA⟩ ∧
    validateCreate ⟨none, some (.jstr badEmail)⟩ =
      .error [⟨nameLoc, requiredMsg⟩, ⟨emailLoc, badEmailMsg⟩] :=
  ⟨validate_create_name_requirements.1 emailA rfl,
   validate_create_name_requirements.2 badEmail rfl⟩

/-- Claim C9: when the \x7bid\x7d path segment does not parse as an
integer, GET, PUT and DELETE /api/v1/users/\x7bid\x7d all answer with the
400 validation response (never 404), the handler body is not entered,
and the table is unchanged. -/
theorem non_integer_id_validation_400 (s : String) (p : Payload) (db : DB)
    (h : parseIntParam s = none) :
    get_user_route s db =
      (.validation (validation_exception_handler [idFieldError] none), db) ∧
    ((get_user_route s db).1).status = 400 ∧
    (put_user_route s p db).2 = db ∧
    ((put_user_route s p db).1).isValidation = true ∧
    ((put_user_route s p db).1).status = 400 ∧
    delete_user_route s db =
      (.validation (validation_exception_handler [idFieldError] none), db) ∧
    ((delete_user_route s db).1).status = 400 := by
  refine ⟨?_, ?_, ?_, ?_, ?_, ?_, ?_⟩ <;>
    cases hv : validateCreate p <;>
      simp [get_user_route, put_user_route, delete_user_route, h, hv,
        Response.status, Response.isValidation, validation_exception_handler]

/-- Witness for C9: the non-numeric path segment "abc" is rejected with
status 400 by all three id routes, leaving `db0` unchanged. -/
theorem non_integer_id_validation_400_witness :
    get_user_route badIdStr db0 =
      (.validation (validation_exception_handler [idFieldError] none), db0) ∧
    ((get_user_route badIdStr db0).1).status = 400 ∧
    (put_user_route badIdStr pBad db0).2 = db0 ∧
    ((put_user_route badIdStr pBad db0).1).isValidation = true ∧
    ((put_user_route badIdStr pBad db0).1).status = 400 ∧
    delete_user_route badIdStr db0 =
      (.validation (validation_exception_handler [idFieldError] none), db0) ∧
    ((delete_user_route badIdStr db0).1).status = 400 :=
  non_integer_id_validation_400 badIdStr pBad db0 rfl

/-- Claim C10: every validation-failure response of any route has status
400 and a body holding the non-empty per-field error list under
"detail" and the submitted request body (null for bodyless requests)
echoed under "body". -/
theorem validation_responses_400_detail_body (s : String) (p : Payload) (db : DB) :
    (∀ c, (post_users p db).1 = .validation c →
        c.1 = 400 ∧ c.2.body = some p ∧ c.2.detail ≠ []) ∧
    (∀ c, (get_user_route s db).1 = .validation c →
        c.1 = 400 ∧ c.2.body = none ∧ c.2.detail ≠ []) ∧
    (∀ c, (put_user_route s p db).1 = .validation c →
        c.1 = 400 ∧ c.2.body = some p ∧ c.2.detail ≠ []) ∧
    (∀ c, (delete_user_route s db).1 = .validation c →
        c.1 = 400 ∧ c.2.body = none ∧ c.2.detail ≠ []) := by
  refine ⟨?_, ?_, ?_, ?_⟩
  · intro c hc
    cases hv : validateCreate p with
    | ok uc =>
        cases hex : emailExists db uc.email <;>
          simp [post_users, hv, create_user, hex] at hc
    | error errs =>
        simp [post_users, hv, validation_exception_handler] at hc
        subst hc
        exact ⟨rfl, rfl, validateCreate_error_ne_nil p errs hv⟩
  · intro c hc
    cases hp : parseIntParam s with
    | none =>
        simp [get_user_route, hp, validation_exception_handler] at hc
        subst hc
        exact ⟨rfl, rfl, by simp⟩
    | some i =>
        cases hf : findUser db i <;>
          simp [get_user_route, hp, get_user, hf] at hc
  · intro c hc
    cases hp : parseIntParam s with
    | none =>
        cases hv : validateCreate p with
        | ok uc =>
            simp [put_user_route, hp, hv, validation_exception_handler] at hc
            subst hc
            exact ⟨rfl, rfl, by simp⟩
        | error errs =>
            simp [put_user_route, hp, hv, validation_exception_handler] at hc
            subst hc
            exact ⟨rfl, rfl, by simp⟩
    | some i =>
        cases hv : validateCreate p with
        | ok uc =>
            cases hf : db.rows.find? (fun r => r.id == i) with
            | none => simp [put_user_route, hp, hv, update_user, findUser, hf] at hc
            | some u =>
                cases hany : db.rows.any (fun r => r.email == uc.email && !(r.id == i)) <;>
                  simp [put_user_route, hp, hv, update_user, findUser, hf, hany] at hc
        | error errs =>
            simp [put_user_route, hp, hv, validation_exception_handler] at hc
            subst hc
            exact ⟨rfl, rfl, validateCreate_error_ne_nil p errs hv⟩
  · intro c hc
    cases hp : parseIntParam s with
    | none =>
        simp [delete_user_route, hp, validation_exception_handler] at hc
        subst hc
        exact ⟨rfl, rfl, by simp⟩
    | some i =>
        cases hf : db.rows.find? (fun r => r.id == i) <;>
          simp [delete_user_route, hp, delete_user, findUser, hf] at hc

/-- Witness for C10: the validation response to posting the bad-email
body `pBad` is exactly `cBad`: status 400, the error list under detail,
and the submitted body echoed back. -/
theorem validation_responses_400_detail_body_witness :
    cBad.1 = 400 ∧ cBad.2.body = some pBad ∧ cBad.2.detail ≠ [] :=
  (validation_responses_400_detail_body badIdStr pBad db0).1 cBad rfl

end FastAPIUsers
